import Mathlib

/-!
Verification of the SPD (Serial Presence Detect) addressing library.

The library translates logical `Function` values (temperature sensor access,
memory access, write-protection queries, page selection) into the 7-bit
device select codes of Table 2 of EE1004, and back; it also fixes the byte
offset layout of the SPD image and the two-page addressing scheme.

All machine integers of the source (`u8`, `usize`) are embedded as `Nat`;
no arithmetic in the source can overflow (codes stay below 128, offsets
below 512), so no modular reduction is needed.
-/

namespace Spd

def MAX_DEVICES : Nat := 8

def MAX_SIZE : Nat := 512

def PAGE_SIZE : Nat := 256

structure Page where
  val : Nat
deriving DecidableEq, Repr

def Page.offset (p : Page) : Nat :=
  if p.val = 0 then 0 else PAGE_SIZE

inductive Function where
  | Temperature (addr : Nat)
  | Memory (addr : Nat)
  | ProtectionStatus (block : Nat)
  | ClearAllWriteProtection
  | PageAddress (page : Page)
deriving DecidableEq, Repr

def Function.to_device_code : Function → Option Nat
  | .Temperature addr =>
      if addr ≤ 0b111 then some ((0b0011 <<< 3) ||| addr) else none
  | .Memory addr =>
      if addr ≤ 0b111 then some ((0b1010 <<< 3) ||| addr) else none
  | .ProtectionStatus block =>
      match block with
      | 0 => some ((0b0110 <<< 3) ||| 0b001)
      | 1 => some ((0b0110 <<< 3) ||| 0b100)
      | 2 => some ((0b0110 <<< 3) ||| 0b101)
      | 3 => some ((0b0110 <<< 3) ||| 0b000)
      | _ => none
  | .ClearAllWriteProtection => some 0b0110011
  | .PageAddress page =>
      match page.val with
      | 0 => some ((0b0110 <<< 3) ||| 0b110)
      | 1 => some ((0b0110 <<< 3) ||| 0b111)
      | _ => none

inductive Offset where
  | SPDDeviceSize
  | SPDRevision
  | DRAMDeviceType
  | ModuleType
  | SDRAMDensity
  | PrimarySDRAMPackageType
  | SDRAMOptionalFeatures
  | SDRAMThermalOptions
  | OtherSDRAMFeatures
  | SecondarySDRAMPackageType
  | ModuleNominalVoltage
  | ModuleOrganization
  | ModuleMemoryBusWidth
  | ExtendedModuleType
  | Timebases
  | TCkAvgMin
  | TCkAvgMax
  | CASLatencies0
  | CASLatencies1
  | CASLatencies2
  | CASLatencies3
  | TAAMin
  | TRCDMin
  | TRPMin
  | UpperNibblesTRASMin
  | TRASMin
  | TRCMin
  | TRFC1MinLSB
  | TRFC1MinMSB
  | TRFC2MinLSB
  | TRFC2MinMSB
  | TRFC4MinLSB
  | TRFC4MinMSB
  | TFAWminMSB
  | TFAWminLSB
  | TRRDSMin
  | TRRDLMin
  | UpperNibbleTWRMin
  | TWRMin
  | UpperNibblesTWTRMin
  | TWTRSMin
  | TWTRLMin
  | TCCDLMinFine
  | TRRDLMinFine
  | TRRDSMinFine
  | TRCMinFind
  | TRPMinFine
  | TRCDMinFine
  | TAAMinFine
  | TCkAvgMaxFine
  | TCkAvgMinFine
  | CRCBaseLSB
  | CRCBaseMSB
  | ModuleManufacturerIDCodeLSB
  | ModuleManufacturerIDCodeMSB
  | ModuleManufacturingLocation
  | ModuleManufacturingDateYear
  | ModuleManufacturingDateWeek
  | ModuleSerialNumber0
  | ModuleSerialNumber1
  | ModuleSerialNumber2
  | ModuleSerialNumber3
  | PartNumberBase
  | PartNumberLimit
  | DRAMManufacturerIDCodeLSB
  | DRAMManufacturerIDCodeMSB
  | DRAMStepping
deriving DecidableEq, Repr

def Offset.to_usize : Offset → Nat
  | .SPDDeviceSize => 0x000
  | .SPDRevision => 0x001
  | .DRAMDeviceType => 0x002
  | .ModuleType => 0x003
  | .SDRAMDensity => 0x004
  | .PrimarySDRAMPackageType => 0x005
  | .SDRAMOptionalFeatures => 0x007
  | .SDRAMThermalOptions => 0x008
  | .OtherSDRAMFeatures => 0x009
  | .SecondarySDRAMPackageType => 0x00a
  | .ModuleNominalVoltage => 0x00b
  | .ModuleOrganization => 0x00c
  | .ModuleMemoryBusWidth => 0x00d
  | .ExtendedModuleType => 0x00f
  | .Timebases => 0x011
  | .TCkAvgMin => 0x012
  | .TCkAvgMax => 0x013
  | .CASLatencies0 => 0x014
  | .CASLatencies1 => 0x015
  | .CASLatencies2 => 0x016
  | .CASLatencies3 => 0x017
  | .TAAMin => 0x018
  | .TRCDMin => 0x019
  | .TRPMin => 0x01a
  | .UpperNibblesTRASMin => 0x01b
  | .TRASMin => 0x01c
  | .TRCMin => 0x01d
  | .TRFC1MinLSB => 0x01e
  | .TRFC1MinMSB => 0x01f
  | .TRFC2MinLSB => 0x020
  | .TRFC2MinMSB => 0x021
  | .TRFC4MinLSB => 0x022
  | .TRFC4MinMSB => 0x023
  | .TFAWminMSB => 0x024
  | .TFAWminLSB => 0x025
  | .TRRDSMin => 0x026
  | .TRRDLMin => 0x027
  | .UpperNibbleTWRMin => 0x29
  | .TWRMin => 0x2a
  | .UpperNibblesTWTRMin => 0x2b
  | .TWTRSMin => 0x2c
  | .TWTRLMin => 0x2d
  | .TCCDLMinFine => 0x75
  | .TRRDLMinFine => 0x76
  | .TRRDSMinFine => 0x77
  | .TRCMinFind => 0x78
  | .TRPMinFine => 0x79
  | .TRCDMinFine => 0x7a
  | .TAAMinFine => 0x7b
  | .TCkAvgMaxFine => 0x7c
  | .TCkAvgMinFine => 0x7d
  | .CRCBaseLSB => 0x7e
  | .CRCBaseMSB => 0x7f
  | .ModuleManufacturerIDCodeLSB => 0x140
  | .ModuleManufacturerIDCodeMSB => 0x141
  | .ModuleManufacturingLocation => 0x142
  | .ModuleManufacturingDateYear => 0x143
  | .ModuleManufacturingDateWeek => 0x144
  | .ModuleSerialNumber0 => 0x145
  | .ModuleSerialNumber1 => 0x146
  | .ModuleSerialNumber2 => 0x147
  | .ModuleSerialNumber3 => 0x148
  | .PartNumberBase => 0x149
  | .PartNumberLimit => 0x15c
  | .DRAMManufacturerIDCodeLSB => 0x15e
  | .DRAMManufacturerIDCodeMSB => 0x15f
  | .DRAMStepping => 0x160

/-- `Offset::within` indexes the buffer at the offset's numeric value; the
Rust slice indexing panics out of bounds, embedded here as `Option`. -/
def Offset.within (o : Offset) (buf : List Nat) : Option Nat :=
  buf[o.to_usize]?

def Function.from_device_code (code : Nat) : Option Function :=
  let device_type_identifier := code >>> 3
  let select_address := code &&& 0b111
  match device_type_identifier with
  | 0b0011 => some (.Temperature select_address)
  | 0b1010 => some (.Memory select_address)
  | 0b0110 =>
      match select_address with
      | 0b001 => some (.ProtectionStatus 0)
      | 0b100 => some (.ProtectionStatus 1)
      | 0b101 => some (.ProtectionStatus 2)
      | 0b000 => some (.ProtectionStatus 3)
      | 0b011 => some .ClearAllWriteProtection
      | 0b110 => some (.PageAddress ⟨0⟩)
      | 0b111 => some (.PageAddress ⟨1⟩)
      | _ => none
  | _ => none

/-- Helper: for a `Function` value whose whole encode/decode behaviour can be
checked by evaluation, transfer the checked facts to an arbitrary code `c`
known to be the encoding. -/
theorem encode_props_concrete (f : Function) {c : Nat}
    (hb : (Function.to_device_code f).all
      (fun k => Function.from_device_code k == some f && decide (k < 128)) = true)
    (h : Function.to_device_code f = some c) :
    Function.from_device_code c = some f ∧ c < 128 := by
  rw [h] at hb
  simp only [Option.all_some, Bool.and_eq_true, beq_iff_eq, decide_eq_true_eq] at hb
  exact hb

/-- Helper: every successful encoding decodes back to the original function,
and the produced code is a 7-bit value. -/
theorem encode_props (f : Function) (c : Nat)
    (h : Function.to_device_code f = some c) :
    Function.from_device_code c = some f ∧ c < 128 := by
  cases f with
  | Temperature addr =>
      by_cases ha : addr ≤ 7
      · interval_cases addr <;> exact encode_props_concrete _ (by decide) h
      · rw [Function.to_device_code, if_neg ha] at h
        exact Option.noConfusion h
  | Memory addr =>
      by_cases ha : addr ≤ 7
      · interval_cases addr <;> exact encode_props_concrete _ (by decide) h
      · rw [Function.to_device_code, if_neg ha] at h
        exact Option.noConfusion h
  | ProtectionStatus block =>
      rcases block with _ | _ | _ | _ | block
      · exact encode_props_concrete _ (by decide) h
      · exact encode_props_concrete _ (by decide) h
      · exact encode_props_concrete _ (by decide) h
      · exact encode_props_concrete _ (by decide) h
      · simp only [Function.to_device_code] at h
        exact Option.noConfusion h
  | ClearAllWriteProtection => exact encode_props_concrete _ (by decide) h
  | PageAddress page =>
      obtain ⟨p⟩ := page
      rcases p with _ | _ | p
      · exact encode_props_concrete _ (by decide) h
      · exact encode_props_concrete _ (by decide) h
      · simp only [Function.to_device_code] at h
        exact Option.noConfusion h

/-- Helper: over the full 7-bit code space, any code that decodes re-encodes
to itself (checked by exhaustive evaluation). -/
theorem decode_encode_bool : ∀ c < 128,
    (Function.from_device_code c).all
      (fun f => Function.to_device_code f == some c) = true := by decide

/-- C1: for every `Function` value `f` such that `to_device_code f` returns
some code `c`, `from_device_code c` returns `f`: decoding the code of a
successfully encoded function reproduces an equal function value. -/
theorem c1_encode_then_decode (f : Function) (c : Nat)
    (h : Function.to_device_code f = some c) :
    Function.from_device_code c = some f :=
  (encode_props f c h).1

theorem c1_encode_then_decode_witness :
    Function.to_device_code (.Temperature 2) = some 0x1a ∧
    Function.from_device_code 0x1a = some (.Temperature 2) :=
  ⟨by decide, c1_encode_then_decode (.Temperature 2) 0x1a (by decide)⟩

/-- C2: for every code `c` in the range 0–127, if `from_device_code c`
returns some `Function` `f`, then `to_device_code f` returns exactly `c`:
encode and decode are mutual inverses on the subset of codes that decode
successfully. -/
theorem c2_decode_then_encode (c : Nat) (hc : c < 128) (f : Function)
    (h : Function.from_device_code c = some f) :
    Function.to_device_code f = some c := by
  have hb := decode_encode_bool c hc
  rw [h] at hb
  simpa using hb

theorem c2_decode_then_encode_witness :
    (0x34 : Nat) < 128 ∧
    Function.from_device_code 0x34 = some (.ProtectionStatus 1) ∧
    Function.to_device_code (.ProtectionStatus 1) = some 0x34 :=
  ⟨by decide, by decide,
    c2_decode_then_encode 0x34 (by decide) (.ProtectionStatus 1) (by decide)⟩

/-- C3: `to_device_code` maps `ProtectionStatus` blocks to the exact
non-monotonic payload codes of the specification table: block 0 to 0x31,
block 1 to 0x34, block 2 to 0x35 and block 3 to 0x30. -/
theorem c3_protection_table :
    Function.to_device_code (.ProtectionStatus 0) = some 0x31 ∧
    Function.to_device_code (.ProtectionStatus 1) = some 0x34 ∧
    Function.to_device_code (.ProtectionStatus 2) = some 0x35 ∧
    Function.to_device_code (.ProtectionStatus 3) = some 0x30 := by decide

/-- C4: `to_device_code` returns no result exactly when the input is out of
the specification-defined domain: `Temperature a` and `Memory a` fail iff
`a > 7` (in particular `Temperature 8`, `Temperature 255`, `Memory 8`),
`ProtectionStatus b` fails iff `b > 3`, `PageAddress p` fails iff `p` is
neither 0 nor 1, and `ClearAllWriteProtection` never fails. -/
theorem c4_domain :
    (∀ a, Function.to_device_code (.Temperature a) = none ↔ 7 < a) ∧
    (∀ a, Function.to_device_code (.Memory a) = none ↔ 7 < a) ∧
    (∀ b, Function.to_device_code (.ProtectionStatus b) = none ↔ 3 < b) ∧
    (∀ p, Function.to_device_code (.PageAddress ⟨p⟩) = none ↔ (p ≠ 0 ∧ p ≠ 1)) ∧
    Function.to_device_code .ClearAllWriteProtection ≠ none ∧
    Function.to_device_code (.Temperature 8) = none ∧
    Function.to_device_code (.Temperature 255) = none ∧
    Function.to_device_code (.Memory 8) = none := by
  refine ⟨?_, ?_, ?_, ?_, by decide, by decide, by decide, by decide⟩
  · intro a
    by_cases ha : a ≤ 7
    · simp only [Function.to_device_code, if_pos ha]
      constructor
      · intro h
        exact Option.noConfusion h
      · intro h
        exact absurd ha (by omega)
    · simp only [Function.to_device_code, if_neg ha]
      constructor
      · intro _
        omega
      · intro _
        trivial
  · intro a
    by_cases ha : a ≤ 7
    · simp only [Function.to_device_code, if_pos ha]
      constructor
      · intro h
        exact Option.noConfusion h
      · intro h
        exact absurd ha (by omega)
    · simp only [Function.to_device_code, if_neg ha]
      constructor
      · intro _
        omega
      · intro _
        trivial
  · intro b
    rcases b with _ | _ | _ | _ | b
    · decide
    · decide
    · decide
    · decide
    · simp only [Function.to_device_code]
      constructor
      · intro _
        omega
      · intro _
        trivial
  · intro p
    rcases p with _ | _ | p
    · decide
    · decide
    · simp only [Function.to_device_code]
      constructor
      · intro _
        omega
      · intro _
        trivial

/-- C5: every 7-bit code whose device type identifier (`c >>> 3`) is none of
0b0011, 0b1010 and 0b0110 decodes to no function; and under identifier
0b0110 the payload 0b010 also decodes to no function. -/
theorem c5_unassigned_codes :
    (∀ c, c < 128 → c >>> 3 ≠ 0b0011 → c >>> 3 ≠ 0b1010 → c >>> 3 ≠ 0b0110 →
      Function.from_device_code c = none) ∧
    (∀ c, c < 128 → c >>> 3 = 0b0110 → c &&& 0b111 = 0b010 →
      Function.from_device_code c = none) := by
  constructor <;> decide

theorem c5_unassigned_codes_witness :
    Function.from_device_code 0x40 = none ∧ Function.from_device_code 0x32 = none :=
  ⟨c5_unassigned_codes.1 0x40 (by decide) (by decide) (by decide) (by decide),
    c5_unassigned_codes.2 0x32 (by decide) (by decide) (by decide)⟩

/-- C6: `to_device_code` matches the fixed literal table: `Temperature 0`
encodes to 0x18, `Memory 1` to 0x51, `ClearAllWriteProtection` to 0x33, and
each code is formed as `(device_type_id <<< 3) ||| payload`. -/
theorem c6_fixed_literals :
    Function.to_device_code (.Temperature 0) = some ((0b0011 <<< 3) ||| 0b000) ∧
    Function.to_device_code (.Memory 1) = some ((0b1010 <<< 3) ||| 0b001) ∧
    Function.to_device_code .ClearAllWriteProtection = some ((0b0110 <<< 3) ||| 0b011) ∧
    (0b0011 <<< 3) ||| 0b000 = 0x18 ∧
    (0b1010 <<< 3) ||| 0b001 = 0x51 ∧
    (0b0110 <<< 3) ||| 0b011 = 0x33 := by decide

/-- C7: `Page.offset` returns 0 for page value 0 and the per-page byte size
256 otherwise; in particular `Page 0` gives 0 and `Page 1` gives 256, and
the function is total (no page value errors). -/
theorem c7_page_offset :
    (∀ p : Page, p.offset = if p.val = 0 then 0 else 256) ∧
    Page.offset ⟨0⟩ = 0 ∧ Page.offset ⟨1⟩ = 256 :=
  ⟨fun _ => rfl, rfl, rfl⟩

/-- C8: for every `Offset` name `o` and every byte buffer of at least
`MAX_SIZE` (512) bytes, the offset's numeric value is in bounds (below 512)
and `Offset.within o buf` returns the byte at index `o.to_usize` without
failing. -/
theorem c8_within_safe (o : Offset) (buf : List Nat) (h : 512 ≤ buf.length) :
    o.to_usize < MAX_SIZE ∧
    Offset.within o buf = buf[o.to_usize]? ∧
    (Offset.within o buf).isSome = true := by
  have hb : o.to_usize < 512 := by cases o <;> decide
  have hlt : o.to_usize < buf.length := lt_of_lt_of_le hb h
  refine ⟨hb, rfl, ?_⟩
  simp only [Offset.within, List.getElem?_eq_getElem hlt, Option.isSome_some]

theorem c8_within_safe_witness :
    Offset.DRAMStepping.to_usize < MAX_SIZE ∧
    Offset.within .DRAMStepping (List.replicate 512 0) =
      (List.replicate 512 0)[Offset.DRAMStepping.to_usize]? ∧
    (Offset.within .DRAMStepping (List.replicate 512 0)).isSome = true :=
  c8_within_safe .DRAMStepping (List.replicate 512 0) (by rw [List.length_replicate])

/-- C9: `to_device_code` is injective on its defined domain and bounded:
two distinct `Function` values that both encode successfully yield distinct
codes, and every successfully produced code lies in the 7-bit range 0–127. -/
theorem c9_injective_bounded :
    (∀ f g : Function, ∀ c : Nat, Function.to_device_code f = some c →
      Function.to_device_code g = some c → f = g) ∧
    (∀ f : Function, ∀ c : Nat, Function.to_device_code f = some c → c < 128) := by
  constructor
  · intro f g c hf hg
    have h1 := (encode_props f c hf).1
    have h2 := (encode_props g c hg).1
    exact Option.some.inj (h1.symm.trans h2)
  · intro f c hf
    exact (encode_props f c hf).2

theorem c9_injective_bounded_witness :
    (Function.Memory 5 = Function.Memory 5) ∧ (0x55 : Nat) < 128 :=
  ⟨c9_injective_bounded.1 (.Memory 5) (.Memory 5) 0x55 (by decide) (by decide),
    c9_injective_bounded.2 (.Memory 5) 0x55 (by decide)⟩

set_option maxRecDepth 4096 in
/-- C10: `from_device_code` is total over the full 8-bit input range, and
every code with the top bit set (128–255) decodes to no function, since no
assigned device type identifier has that bit contributing. -/
theorem c10_high_codes_none :
    ∀ c, c < 256 → 128 ≤ c → Function.from_device_code c = none := by decide

theorem c10_high_codes_none_witness : Function.from_device_code 200 = none :=
  c10_high_codes_none 200 (by decide) (by decide)

end Spd
